import Mathlib

/-!
Verification of the cross-source recreation discovery and visit-planning core
of the nps-explorer-mcp-server repository, as a shallow embedding in Lean 4.

Conventions of the embedding:
* JS numbers are modelled as `ℚ`; a JS number that may be `NaN` (the result of
  `parseFloat` on an unparseable string) is modelled as `Option ℚ`, `none`
  standing for `NaN`.
* JS strings are `String`; `String.prototype.toLowerCase` is modelled by
  mapping `Char.toLower` over the characters, and `String.prototype.includes`
  by an executable substring test on character lists.
* A provider call that may throw is modelled as an `Except String` value
  supplied as input; `try/catch` around it becomes a `match` on that value.
* Markdown formatting of responses is presentation (out of scope per the
  spec); the embedding returns the structured data the formatting consumes.
-/

/-- Lowercase model of `String.prototype.toLowerCase` (ASCII fold via
`Char.toLower`), returning the character list of the lowered string. -/
def lc (s : String) : List Char := s.data.map Char.toLower

/-- Test whether the first list is an initial segment of the second. -/
def leadEq : List Char → List Char → Bool
  | [], _ => true
  | _ :: _, [] => false
  | a :: as, b :: bs => a == b && leadEq as bs

/-- Model of `String.prototype.includes` on character lists: `hasSub needle
hay` is true iff `needle` occurs contiguously inside `hay`. -/
def hasSub (needle : List Char) : List Char → Bool
  | [] => leadEq needle []
  | c :: t => leadEq needle (c :: t) || hasSub needle t

/-- Case-insensitive containment: `hay.toLowerCase().includes(needle.toLowerCase())`. -/
def ciContains (hay needle : String) : Bool := hasSub (lc needle) (lc hay)

/-! ## Weather suitability scorer (planParkVisit, src/unnamed/part_002 lines 45-86) -/

/-- Forecast day as consumed by the scorer; `chanceOfRain` is optional in the
provider's type (`chanceOfRain?: number`), `none` meaning the field is absent
(JS `undefined`). -/
structure ForecastDay where
  date : String
  minTempF : ℚ
  maxTempF : ℚ
  condition : String
  chanceOfRain : Option ℚ
deriving DecidableEq

/-- Scored day pushed onto `goodWeatherDays` (its formatting-only
`conditions` text field is presentation and omitted). -/
structure ScoredDay where
  date : String
  score : ℤ
deriving DecidableEq

/-- Temperature contribution: with `avgTemp = (maxTempF + minTempF) / 2`
(inlined below), 65..80 gives +3, else 50..85 gives +2, else +1
(lines 53-60). -/
def tempScore (day : ForecastDay) : ℤ :=
  if 65 ≤ (day.maxTempF + day.minTempF) / 2 ∧ (day.maxTempF + day.minTempF) / 2 ≤ 80 then 3
  else if 50 ≤ (day.maxTempF + day.minTempF) / 2 ∧ (day.maxTempF + day.minTempF) / 2 ≤ 85 then 2
  else 1

/-- Rain contribution (lines 62-69): `day.chanceOfRain < 20` etc. When
`chanceOfRain` is absent, every JS comparison `undefined < k` evaluates to
`false`, so no branch fires and the contribution is 0. -/
def rainScore (day : ForecastDay) : ℤ :=
  match day.chanceOfRain with
  | some r => if r < 20 then 3 else if r < 40 then 2 else if r < 60 then 1 else 0
  | none => 0

/-- Keyword list of line 72. -/
def goodConditions : List String := ["sunny", "clear", "partly cloudy"]

/-- Condition contribution (lines 71-75): +2 when the lowercased condition
text contains one of the (already lowercase) keywords. -/
def condScore (day : ForecastDay) : ℤ :=
  if goodConditions.any (fun c => hasSub c.data (lc day.condition)) then 2 else 0

/-- Total score of one forecast day (lines 50-75). -/
def scoreDay (day : ForecastDay) : ℤ :=
  tempScore day + rainScore day + condScore day

/-- Entry pushed onto `goodWeatherDays` for one day (lines 77-81). -/
def mkScored (day : ForecastDay) : ScoredDay :=
  { date := day.date, score := scoreDay day }

/-- The `goodWeatherDays` list in input order, before sorting (lines 47-83). -/
def preScores (days : List ForecastDay) : List ScoredDay :=
  days.map mkScored

/-- Comparator order of `goodWeatherDays.sort((a, b) => b.score - a.score)`
(line 86): `a` may come before `b` iff `a.score ≥ b.score`. -/
def rDesc (a b : ScoredDay) : Prop := b.score ≤ a.score

instance : DecidableRel rDesc := fun a b => inferInstanceAs (Decidable (b.score ≤ a.score))

instance : IsTotal ScoredDay rDesc := ⟨fun a b => le_total b.score a.score⟩

instance : IsTrans ScoredDay rDesc := ⟨fun _ _ _ h1 h2 => le_trans h2 h1⟩

/-- Scorer output: one ScoredDay per input day, sorted by
`(a, b) => b.score - a.score` (lines 47-86). ECMAScript `Array.prototype.sort`
is a stable sort consistent with the comparator, so its output is the unique
stable descending-by-score reordering; `List.insertionSort` with `rDesc`
(which keeps the earlier element on ties) computes exactly that reordering. -/
def scoreDays (days : List ForecastDay) : List ScoredDay :=
  List.insertionSort rDesc (preScores days)

/-! ## Geocoding resolver (NominatimGeocodingService.getCoordinates, src/unnamed/part_000) -/

/-- Raw Nominatim candidate: `lat` and `lon` are string-encoded. -/
structure GeoCandidate where
  lat : String
  lon : String
  display_name : String
deriving DecidableEq

/-- Natural number denoted by a list of decimal digit characters. -/
def natOfDigits (ds : List Char) : ℕ :=
  ds.foldl (fun n c => n * 10 + (c.toNat - 48)) 0

/-- Model of JS `parseFloat` on its plain decimal fragment: skip leading
spaces, take an optional sign, then the longest `digits [. digits]` prefix,
ignoring any trailing garbage; when no digit at all is found the JS result is
`NaN`, modelled as `none`. -/
def jsParseFloat (s : String) : Option ℚ :=
  let cs := s.data.dropWhile (fun c => c = ' ')
  let sign : ℚ := match cs with
    | '-' :: _ => -1
    | _ => 1
  let body : List Char := match cs with
    | '-' :: r => r
    | '+' :: r => r
    | r => r
  let intPart := body.takeWhile Char.isDigit
  let rest := body.dropWhile Char.isDigit
  let fracPart : List Char := match rest with
    | '.' :: r => r.takeWhile Char.isDigit
    | _ => []
  if intPart = [] ∧ fracPart = [] then none
  else some (sign * ((natOfDigits intPart : ℚ) +
    (natOfDigits fracPart : ℚ) / (10 : ℚ) ^ fracPart.length))

/-- Result record of the geocoding service. A JS number that can be `NaN`
(the output of `parseFloat`) is `Option ℚ`, `none` standing for `NaN`. -/
structure GeocodingResult where
  latitude : Option ℚ
  longitude : Option ℚ
  displayName : String
deriving DecidableEq

/-- Embedding of `getCoordinates` (part_000 lines 19-46): the provider call
outcome (candidate list or thrown transport error) is the input; the
surrounding `try/catch` returns `null` on a throw, the empty candidate list
also yields `null`, and otherwise the first candidate is float-parsed. -/
def getCoordinates (resp : Except String (List GeoCandidate)) : Option GeocodingResult :=
  match resp with
  | Except.error _ => none
  | Except.ok cands =>
    match cands with
    | [] => none
    | c :: _ =>
      some { latitude := jsParseFloat c.lat, longitude := jsParseFloat c.lon,
             displayName := c.display_name }

/-! ## Recreation aggregator (findNearbyRecreation, src/unnamed/part_002 lines 202-270) -/

/-- Facility record fields the aggregator inspects. -/
structure Facility where
  facilityName : String
  facilityDescription : Option String
deriving DecidableEq

/-- Park record fields the aggregator and dispatcher inspect; `parkCode` is
optional (`if (park.parkCode)` guards on it). -/
structure Park where
  parkCode : Option String
  name : String
deriving DecidableEq

/-- Trail record fields the aggregator inspects; `trailUse` is `some list`
when the field is a (possibly empty) JS array — an empty array is truthy and
passes `Array.isArray` — and `none` when it is absent or not an array. -/
structure Trail where
  name : String
  description : Option String
  trailUse : Option (List String)
deriving DecidableEq

/-- Modelled from the spec: the provider service wrappers (`RecGovService`,
`NpsApiService`), whose implementations are not among the provided source
files (only their callers are), absorb a provider failure into an empty
result list, per the spec's PartialFailure policy: "any one of the three
independent queries failing does not cancel the others; the aggregator
returns whatever succeeded plus an implicit signal (empty collection) for
what did not". -/
def svcList {α : Type} (r : Except String (List α)) : List α :=
  match r with
  | Except.ok l => l
  | Except.error _ => []

/-- Radius floor of line 216: `distance < 25 ? 25 : distance`. -/
def effRadius (distance : ℚ) : ℚ :=
  if distance < 25 then 25 else distance

/-- Facility activity predicate (lines 247-252): case-insensitive substring
match of the activity term against facility name or description (absent
description behaves as the empty string). -/
def facMatches (activityType : String) (f : Facility) : Bool :=
  hasSub (lc activityType) (lc f.facilityName) ||
    hasSub (lc activityType) (match f.facilityDescription with | some d => lc d | none => [])

/-- Trail activity predicate (lines 258-269): when `trailUse` is an array,
match the activity term against its entries; only otherwise fall back to the
name/description substring match. -/
def trailMatches (activityType : String) (t : Trail) : Bool :=
  match t.trailUse with
  | some uses => uses.any (fun u => hasSub (lc activityType) (lc u))
  | none =>
    hasSub (lc activityType) (lc t.name) ||
      hasSub (lc activityType) (match t.description with | some d => lc d | none => [])

/-- Facility filter step (lines 245-253): applied only when `activityType`
is JS-truthy (present and non-empty). -/
def applyFacFilter (activityType : Option String) (facilities : List Facility) : List Facility :=
  match activityType with
  | some act => if act = "" then facilities else facilities.filter (facMatches act)
  | none => facilities

/-- Trail filter step (lines 256-270): applied only when `activityType` is
JS-truthy and the trail list is non-empty. -/
def applyTrailFilter (activityType : Option String) (trails : List Trail) : List Trail :=
  match activityType with
  | some act =>
    if act = "" then trails
    else if 0 < trails.length then trails.filter (trailMatches act) else trails
  | none => trails

/-- Per-park trail fan-out (lines 234-242): for each nearby park with a
truthy `parkCode`, fetch its trails and concatenate in park order. -/
def collectTrails (trailsByPark : String → Except String (List Trail)) : List Park → List Trail
  | [] => []
  | p :: ps =>
    (match p.parkCode with
     | some code => if code = "" then [] else svcList (trailsByPark code)
     | none => []) ++ collectTrails trailsByPark ps

/-- Provider outcomes feeding one aggregation request: the geocoder's raw
response and the three recreation queries (fallible, keyed by the arguments
the aggregator passes). -/
structure RecProviders where
  geoResp : Except String (List GeoCandidate)
  facilities : Option ℚ → Option ℚ → ℚ → Except String (List Facility)
  parksNearby : Option ℚ → Option ℚ → ℕ → Except String (List Park)
  trailsByPark : String → Except String (List Trail)

/-- Request parameters of findNearbyRecreation (zod defaults: distance 50,
includeTrails true). -/
structure RecRequest where
  location : String
  distance : ℚ
  activityType : Option String
  includeTrails : Bool

/-- Structured content of a successful aggregation; the response text also
reports the adjusted radius, kept here as `usedRadius`. The formatting-only
8-item display truncation is presentation and out of scope. -/
structure RecOutput where
  usedRadius : ℚ
  parks : List Park
  facilities : List Facility
  trails : List Trail
deriving DecidableEq

/-- Outcome of findNearbyRecreation: location resolution failure message or
the structured result. -/
inductive RecResult where
  | locationNotFound : String → RecResult
  | ok : RecOutput → RecResult
deriving DecidableEq

/-- Body of findNearbyRecreation once coordinates are resolved (lines
213-270): radius floor, the three queries (with service-level failure
absorption), then the activity filters. The weather-forecast fetch of line
273 feeds only the presentational text and is omitted. -/
def findNearbyRecreationWith (pv : RecProviders) (req : RecRequest)
    (coordinates : GeocodingResult) : RecOutput :=
  let adjustedDistance := effRadius req.distance
  let facilities := svcList (pv.facilities coordinates.latitude coordinates.longitude adjustedDistance)
  let nearbyParks := svcList (pv.parksNearby coordinates.latitude coordinates.longitude 5)
  let trails := if req.includeTrails then collectTrails pv.trailsByPark nearbyParks else []
  { usedRadius := adjustedDistance,
    parks := nearbyParks,
    facilities := applyFacFilter req.activityType facilities,
    trails := applyTrailFilter req.activityType trails }

/-- Embedding of findNearbyRecreation (lines 202-270): geocoding failure
fails the whole aggregation fast; otherwise the structured result. -/
def findNearbyRecreation (pv : RecProviders) (req : RecRequest) : RecResult :=
  match getCoordinates pv.geoResp with
  | none => RecResult.locationNotFound req.location
  | some coordinates => RecResult.ok (findNearbyRecreationWith pv req coordinates)

/-! ## Park criteria dispatcher (findParks, src/unnamed/part_002 lines 506-523) -/

/-- JS truthiness of an optional string: present and non-empty. -/
def strOptTruthy (s : Option String) : Bool :=
  match s with
  | some a => !(a == "")
  | none => false

/-- Model of `Array.prototype.slice(s, e)` for non-negative indices:
elements with index in `[s, e)`, clamped to the array. -/
def jsSlice {α : Type} (l : List α) (s e : ℕ) : List α :=
  (l.take e).drop s

/-- Criteria of findParks (zod defaults: limit 10, start 0). -/
structure FindParksCriteria where
  q : Option String
  stateCode : Option String
  activity : Option String
  limit : ℕ
  start : ℕ

/-- Provider query paths available to the dispatcher. -/
structure ParksProviders where
  searchParks : Option String → Option String → ℕ → ℕ → List Park
  getParksByActivity : String → List Park
  getParks : ℕ → ℕ → List Park

/-- Embedding of the findParks dispatch (lines 511-523): `q !== undefined ||
stateCode !== undefined` delegates to searchParks with native pagination;
else a truthy `activity` fetches the full activity set and slices
`[start, min(length, start + limit))` locally; else the full listing with
native pagination. -/
def findParks (pv : ParksProviders) (c : FindParksCriteria) : List Park :=
  if c.q.isSome || c.stateCode.isSome then
    pv.searchParks c.q c.stateCode c.limit c.start
  else if strOptTruthy c.activity then
    jsSlice (pv.getParksByActivity (c.activity.getD ""))
      c.start
      (min (pv.getParksByActivity (c.activity.getD "")).length (c.start + c.limit))
  else
    pv.getParks c.limit c.start

/-! ## Closure-relevance filter (planParkVisit, src/unnamed/part_002 lines 92-96) -/

/-- Alert record fields the closure filter inspects. -/
structure Alert where
  title : String
  category : String
  description : String
deriving DecidableEq

/-- Embedding of the closure filter predicate of lines 92-96. -/
def isClosureAlert (a : Alert) : Bool :=
  hasSub "closure".data (lc a.title) ||
    hasSub "closed".data (lc a.title) ||
    hasSub "closure".data (lc a.category)

/-- The `closureAlerts` list of line 92. -/
def closureAlerts (alerts : List Alert) : List Alert :=
  alerts.filter isClosureAlert

/-! ## Theorems for claims C2 and C3 -/

/-- C2 counterexample: a day whose `chanceOfRain` is absent gets rain
contribution 0, not the claimed +3: with `undefined` every bucket comparison
is false in JS, so the `< 20` bucket does not fire. -/
theorem rainScore_absent_cex :
    rainScore { date := "2025-06-01", minTempF := 70, maxTempF := 78,
                condition := "Cloudy", chanceOfRain := none } ≠ 3 ∧
    rainScore { date := "2025-06-01", minTempF := 70, maxTempF := 78,
                condition := "Cloudy", chanceOfRain := none } = 0 := by
  constructor
  · decide
  · rfl

/-- C2 amended: for every forecast day whose `chanceOfRain` field is absent,
the rain contribution to the score is 0 (the `else` bucket), because every
comparison against the absent value is false. -/
theorem rainScore_absent (day : ForecastDay) (h : day.chanceOfRain = none) :
    rainScore day = 0 := by
  unfold rainScore
  rw [h]

/-- C2 amended witness at a concrete absent-rain day. -/
theorem rainScore_absent_witness :
    rainScore { date := "2025-06-01", minTempF := 70, maxTempF := 78,
                condition := "Cloudy", chanceOfRain := none } = 0 :=
  rainScore_absent _ rfl

/-- C3: every day's score is the sum of the temperature component (+3 for
average in [65,80], else +2 for [50,85], else +1), the rain component
(+3 below 20, +2 below 40, +1 below 60, else +0, and +0 when absent) and the
condition component (+2 iff the condition text case-insensitively contains
one of "sunny", "clear", "partly cloudy"); the score is an integer in
[1, 8]; every scored output day arises from an input day this way; and the
example day scores 8. -/
theorem score_components_and_range :
    (∀ day : ForecastDay, scoreDay day = tempScore day + rainScore day + condScore day) ∧
    (∀ day : ForecastDay,
      condScore day = if goodConditions.any (fun c => ciContains day.condition c) then 2 else 0) ∧
    (∀ day : ForecastDay, 1 ≤ scoreDay day ∧ scoreDay day ≤ 8) ∧
    (∀ days : List ForecastDay, (scoreDays days).Perm (days.map mkScored)) ∧
    scoreDay { date := "2025-06-01", minTempF := 70, maxTempF := 78,
               condition := "Sunny", chanceOfRain := some 10 } = 8 := by
  refine ⟨fun _ => rfl, ?_, ?_, ?_, ?_⟩
  · intro day
    have e1 : lc "sunny" = "sunny".data := by decide
    have e2 : lc "clear" = "clear".data := by decide
    have e3 : lc "partly cloudy" = "partly cloudy".data := by decide
    have hb : (goodConditions.any fun c => hasSub c.data (lc day.condition)) =
        (goodConditions.any fun c => ciContains day.condition c) := by
      unfold goodConditions ciContains
      simp only [List.any_cons, List.any_nil]
      rw [e1, e2, e3]
    unfold condScore
    simp only [hb]
  · intro day
    have ht : tempScore day = 3 ∨ tempScore day = 2 ∨ tempScore day = 1 := by
      unfold tempScore
      split_ifs <;> simp
    have hr : rainScore day = 3 ∨ rainScore day = 2 ∨ rainScore day = 1 ∨ rainScore day = 0 := by
      unfold rainScore
      cases day.chanceOfRain with
      | none => simp
      | some r =>
        dsimp only
        split_ifs <;> simp
    have hc : condScore day = 2 ∨ condScore day = 0 := by
      unfold condScore
      split_ifs <;> simp
    unfold scoreDay
    rcases ht with h | h | h <;> rcases hr with h' | h' | h' | h' <;>
      rcases hc with h'' | h'' <;> rw [h, h', h''] <;> constructor <;> decide
  · intro days
    exact List.perm_insertionSort rDesc (preScores days)
  · have h1 : tempScore { date := "2025-06-01", minTempF := 70, maxTempF := 78, condition := "Sunny", chanceOfRain := some 10 } = 3 := by
      unfold tempScore
      norm_num
    have h2 : rainScore { date := "2025-06-01", minTempF := 70, maxTempF := 78, condition := "Sunny", chanceOfRain := some 10 } = 3 := by
      norm_num [rainScore]
    have h3 : condScore { date := "2025-06-01", minTempF := 70, maxTempF := 78, condition := "Sunny", chanceOfRain := some 10 } = 2 := by decide
    unfold scoreDay
    rw [h1, h2, h3]
    decide

/-- Helper: inserting a day into a list with `orderedInsert rDesc` does not
disturb the subsequence of any fixed score `s`: the inserted element lands
before every stored element of equal score only when it is the new head of
that subsequence. -/
theorem filter_score_orderedInsert (s : ℤ) (x : ScoredDay) :
    ∀ l : List ScoredDay, (List.orderedInsert rDesc x l).filter (fun d => d.score == s) =
      ((x :: l).filter (fun d => d.score == s))
  | [] => rfl
  | y :: ys => by
    simp only [List.orderedInsert]
    split_ifs with hxy
    · rfl
    · have hlt : x.score < y.score := not_le.mp hxy
      have ih := filter_score_orderedInsert s x ys
      by_cases hx : x.score = s
      · have hy : y.score ≠ s := fun h => by omega
        simp [List.filter_cons, ih, hx, hy, beq_iff_eq]
      · simp [List.filter_cons, ih, hx, beq_iff_eq]

/-- Helper: the insertion sort by descending score preserves, for every score
value `s`, the relative order of the days scoring `s`. -/
theorem filter_score_insertionSort (s : ℤ) :
    ∀ l : List ScoredDay, (List.insertionSort rDesc l).filter (fun d => d.score == s) =
      l.filter (fun d => d.score == s)
  | [] => rfl
  | x :: l => by
    simp only [List.insertionSort]
    rw [filter_score_orderedInsert, List.filter_cons, List.filter_cons,
      filter_score_insertionSort s l]

/-- C4: the scorer output is ranked descending by score (`rDesc` holds along
the output, i.e. each day's score is at least every later day's score), and
the ranking is stable: for every score value `s`, the days scoring `s` appear
in the output in exactly their input order (the filtered subsequences of the
ranked output and of the input-order scored list coincide). Both facts are
about the pure function `scoreDays`, so identical input yields the identical
ranked sequence. -/
theorem scoreDays_ranked_and_stable :
    (∀ days : List ForecastDay, List.Sorted rDesc (scoreDays days)) ∧
    (∀ days : List ForecastDay, ∀ s : ℤ,
      (scoreDays days).filter (fun d => d.score == s) =
        (preScores days).filter (fun d => d.score == s)) := by
  constructor
  · intro days
    exact List.sorted_insertionSort rDesc (preScores days)
  · intro days s
    exact filter_score_insertionSort s (preScores days)

/-! ## Theorems for claims C8 and C9 (geocoding resolver) -/

/-- C8: a failed provider call (thrown transport error) is swallowed by the
resolver's catch block and yields `none` (JS `null`), exactly the outcome of
a genuine empty candidate list — the two are indistinguishable. -/
theorem getCoordinates_failure_not_propagated (e : String) :
    getCoordinates (Except.error e) = none ∧
    getCoordinates (Except.ok []) = none ∧
    getCoordinates (Except.error e) = getCoordinates (Except.ok []) :=
  ⟨rfl, rfl, rfl⟩

/-- C9 counterexample: on a candidate whose coordinate strings do not parse,
`parseFloat` yields `NaN` (modelled `none`) and the resolver still returns a
non-null — successfully-parsed-looking — result carrying those non-numeric
coordinates; the parse failure is not surfaced as an error. -/
theorem getCoordinates_nan_cex :
    getCoordinates (Except.ok [{ lat := "abc", lon := "xyz", display_name := "Nowhere" }]) =
      some { latitude := none, longitude := none, displayName := "Nowhere" } := by
  rfl

/-- C9 amended: on provider success with at least one candidate, the resolver
returns the first candidate's float-parsed latitude/longitude and display
name; an unparseable value is not coerced to 0 but becomes `NaN` (`none`) in
a still-non-null result ("abc" parses to `NaN`, never 0, while "37.8651"
parses exactly). -/
theorem getCoordinates_first_candidate (c : GeoCandidate) (rest : List GeoCandidate) :
    getCoordinates (Except.ok (c :: rest)) =
      some { latitude := jsParseFloat c.lat, longitude := jsParseFloat c.lon,
             displayName := c.display_name } ∧
    jsParseFloat "abc" = none ∧
    jsParseFloat "abc" ≠ some 0 ∧
    jsParseFloat "37.8651" = some (378651 / 10000 : ℚ) := by
  refine ⟨rfl, rfl, by rw [show jsParseFloat "abc" = none from rfl]; simp, ?_⟩
  have h : jsParseFloat "37.8651" = some (1 * ((37 : ℚ) + (8651 : ℚ) / (10 : ℚ) ^ (4 : ℕ))) := rfl
  rw [h]
  norm_num

/-! ## Theorems for claims C1, C5 and C10 (recreation aggregator) -/

/-- Helper: the facility activity filter of an empty facility list is empty. -/
theorem applyFacFilter_nil (activityType : Option String) :
    applyFacFilter activityType [] = [] := by
  cases activityType with
  | none => rfl
  | some act =>
    unfold applyFacFilter
    by_cases h : act = "" <;> simp [h]

/-- Helper: once the location resolves, the aggregation returns the
structured body. -/
theorem findNearbyRecreation_eq_ok (pv : RecProviders) (req : RecRequest)
    (geo : GeocodingResult) (hg : getCoordinates pv.geoResp = some geo) :
    findNearbyRecreation pv req = RecResult.ok (findNearbyRecreationWith pv req geo) := by
  unfold findNearbyRecreation
  rw [hg]

/-- C1: if the facilities query fails (the provider throws, absorbed by the
service wrapper as modelled from the spec) while the parks query succeeds
with a non-empty list, the aggregator still returns a successful structured
result whose parks collection is that non-empty list and whose facilities
collection is empty — the failure neither cancels the other queries nor
propagates. -/
theorem aggregator_partial_failure (pv : RecProviders) (req : RecRequest)
    (geo : GeocodingResult) (e : String) (ps : List Park)
    (hg : getCoordinates pv.geoResp = some geo)
    (hf : pv.facilities geo.latitude geo.longitude (effRadius req.distance) = Except.error e)
    (hp : pv.parksNearby geo.latitude geo.longitude 5 = Except.ok ps)
    (hps : ps ≠ []) :
    ∃ out : RecOutput, findNearbyRecreation pv req = RecResult.ok out ∧
      out.parks = ps ∧ out.parks ≠ [] ∧ out.facilities = [] := by
  refine ⟨findNearbyRecreationWith pv req geo, findNearbyRecreation_eq_ok pv req geo hg,
    ?_, ?_, ?_⟩
  · show svcList (pv.parksNearby geo.latitude geo.longitude 5) = ps
    rw [hp]
    rfl
  · show svcList (pv.parksNearby geo.latitude geo.longitude 5) ≠ []
    rw [hp]
    exact hps
  · show applyFacFilter req.activityType
      (svcList (pv.facilities geo.latitude geo.longitude (effRadius req.distance))) = []
    rw [hf]
    exact applyFacFilter_nil req.activityType

/-- C1 witness: a concrete aggregation in which the facilities provider
throws and the parks provider returns one park. -/
theorem aggregator_partial_failure_witness :
    ∃ out : RecOutput,
      findNearbyRecreation
        { geoResp := Except.ok [{ lat := "37", lon := "-119", display_name := "Yosemite Valley" }],
          facilities := fun _ _ _ => Except.error "rec.gov unavailable",
          parksNearby := fun _ _ _ => Except.ok [{ parkCode := some "yose", name := "Yosemite" }],
          trailsByPark := fun _ => Except.ok [] }
        { location := "Yosemite Valley", distance := 50, activityType := none,
          includeTrails := true } = RecResult.ok out ∧
      out.parks = [{ parkCode := some "yose", name := "Yosemite" }] ∧
      out.parks ≠ [] ∧ out.facilities = [] :=
  aggregator_partial_failure _ _
    { latitude := jsParseFloat "37", longitude := jsParseFloat "-119",
      displayName := "Yosemite Valley" }
    "rec.gov unavailable" [{ parkCode := some "yose", name := "Yosemite" }]
    rfl rfl rfl (List.cons_ne_nil _ _)

/-- C5: the effective radius is `max(25, requested)` — a request with radius
10 queries facilities with radius 25, one with radius ≥ 25 queries with it
unchanged — and in every resolved aggregation the facilities query is issued
with exactly that effective radius. -/
theorem radius_floor_enforced :
    (∀ d : ℚ, effRadius d = max 25 d) ∧
    effRadius 10 = 25 ∧
    (∀ d : ℚ, 25 ≤ d → effRadius d = d) ∧
    (∀ (pv : RecProviders) (req : RecRequest) (geo : GeocodingResult),
      getCoordinates pv.geoResp = some geo →
      ∃ out : RecOutput, findNearbyRecreation pv req = RecResult.ok out ∧
        out.usedRadius = effRadius req.distance ∧
        out.facilities = applyFacFilter req.activityType
          (svcList (pv.facilities geo.latitude geo.longitude (effRadius req.distance)))) := by
  refine ⟨?_, ?_, ?_, ?_⟩
  · intro d
    unfold effRadius
    rcases lt_or_le d 25 with h | h
    · rw [if_pos h, max_eq_left h.le]
    · rw [if_neg (not_lt.mpr h), max_eq_right h]
  · norm_num [effRadius]
  · intro d h
    unfold effRadius
    rw [if_neg (not_lt.mpr h)]
  · intro pv req geo hg
    exact ⟨findNearbyRecreationWith pv req geo, findNearbyRecreation_eq_ok pv req geo hg,
      rfl, rfl⟩

/-- C5 witness: radius 30 passes unchanged, and a concrete aggregation with
requested radius 10 queries facilities with radius `effRadius 10`. -/
theorem radius_floor_enforced_witness :
    (25 ≤ (30 : ℚ) ∧ effRadius 30 = 30) ∧
    (∃ out : RecOutput,
      findNearbyRecreation
        { geoResp := Except.ok [{ lat := "39", lon := "-105", display_name := "Denver" }],
          facilities := fun _ _ _ => Except.ok [],
          parksNearby := fun _ _ _ => Except.ok [],
          trailsByPark := fun _ => Except.ok [] }
        { location := "Denver", distance := 10, activityType := none,
          includeTrails := false } = RecResult.ok out ∧
      out.usedRadius = effRadius 10 ∧
      out.facilities = applyFacFilter none (svcList (Except.ok ([] : List Facility)))) :=
  ⟨⟨by norm_num, radius_floor_enforced.2.2.1 30 (by norm_num)⟩,
   radius_floor_enforced.2.2.2
     { geoResp := Except.ok [{ lat := "39", lon := "-105", display_name := "Denver" }],
       facilities := fun _ _ _ => Except.ok [],
       parksNearby := fun _ _ _ => Except.ok [],
       trailsByPark := fun _ => Except.ok [] }
     { location := "Denver", distance := 10, activityType := none, includeTrails := false }
     { latitude := jsParseFloat "39", longitude := jsParseFloat "-105", displayName := "Denver" }
     rfl⟩

/-- Helper: a trail whose `trailUse` is a present empty array never survives
the trail activity filter for a truthy activity term. -/
theorem not_mem_applyTrailFilter_of_empty_use (act : String) (t : Trail) (tr : List Trail)
    (hact : act ≠ "") (hu : t.trailUse = some []) :
    t ∉ applyTrailFilter (some act) tr := by
  show t ∉ (if act = "" then tr else if 0 < tr.length then tr.filter (trailMatches act) else tr)
  rw [if_neg hact]
  by_cases hlen : 0 < tr.length
  · rw [if_pos hlen]
    intro hmem
    have hm := List.of_mem_filter hmem
    simp [trailMatches, hu] at hm
  · rw [if_neg hlen]
    have h0 : tr = [] := by
      cases tr with
      | nil => rfl
      | cons a l => exact absurd (by simp) hlen
    rw [h0]
    simp

/-- C10: the name/description fallback of the trail activity filter runs only
when `trailUse` is absent (or not an array, which the embedding conflates
with absent); with a present array the permitted-use entries alone decide the
match, so a trail with a present-but-empty `trailUse` matches no activity
term and — whenever a truthy activityType is supplied — is excluded from the
aggregator's trail output regardless of its name or description. -/
theorem trailUse_empty_excludes :
    (∀ (act : String) (t : Trail) (uses : List String), t.trailUse = some uses →
      trailMatches act t = uses.any (fun u => hasSub (lc act) (lc u))) ∧
    (∀ (act : String) (t : Trail), t.trailUse = none →
      trailMatches act t = (hasSub (lc act) (lc t.name) ||
        hasSub (lc act) (match t.description with | some d => lc d | none => []))) ∧
    (∀ (act : String) (t : Trail), t.trailUse = some [] → trailMatches act t = false) ∧
    (∀ (pv : RecProviders) (req : RecRequest) (act : String) (out : RecOutput) (t : Trail),
      req.activityType = some act → act ≠ "" →
      findNearbyRecreation pv req = RecResult.ok out →
      t.trailUse = some [] → t ∉ out.trails) := by
  refine ⟨?_, ?_, ?_, ?_⟩
  · intro act t uses h
    unfold trailMatches
    rw [h]
  · intro act t h
    unfold trailMatches
    rw [h]
  · intro act t h
    unfold trailMatches
    rw [h]
    rfl
  · intro pv req act out t hact hne hok hu
    cases hgc : getCoordinates pv.geoResp with
    | none =>
      unfold findNearbyRecreation at hok
      rw [hgc] at hok
      exact RecResult.noConfusion hok
    | some geo =>
      rw [findNearbyRecreation_eq_ok pv req geo hgc] at hok
      have h := RecResult.ok.inj hok
      subst h
      have htr : (findNearbyRecreationWith pv req geo).trails =
          applyTrailFilter req.activityType
            (if req.includeTrails then
              collectTrails pv.trailsByPark
                (svcList (pv.parksNearby geo.latitude geo.longitude 5))
             else []) := rfl
      rw [htr, hact]
      exact not_mem_applyTrailFilter_of_empty_use act t _ hne hu

/-- C10 witness: a concrete aggregation with activity "hiking" in which the
only trail has an empty `trailUse` array and a name containing "hiking", yet
the trail output is empty. -/
theorem trailUse_empty_excludes_witness :
    ({ name := "hiking loop", description := none, trailUse := some [] } : Trail) ∉
      ({ usedRadius := 50, parks := [{ parkCode := some "yose", name := "Yosemite" }],
         facilities := [], trails := [] } : RecOutput).trails :=
  trailUse_empty_excludes.2.2.2
    { geoResp := Except.ok [{ lat := "37", lon := "-119", display_name := "Yosemite Valley" }],
      facilities := fun _ _ _ => Except.ok [],
      parksNearby := fun _ _ _ => Except.ok [{ parkCode := some "yose", name := "Yosemite" }],
      trailsByPark := fun _ =>
        Except.ok [{ name := "hiking loop", description := none, trailUse := some [] }] }
    { location := "Yosemite Valley", distance := 50, activityType := some "hiking",
      includeTrails := true }
    "hiking"
    { usedRadius := 50, parks := [{ parkCode := some "yose", name := "Yosemite" }],
      facilities := [], trails := [] }
    { name := "hiking loop", description := none, trailUse := some [] }
    rfl (by decide) (by rfl) rfl

/-! ## Theorems for claim C6 (park criteria dispatcher) -/

/-- Helper: the activity dispatch path of findParks — full activity-filtered
fetch followed by the local slice `[start, min(length, start + limit))`. -/
theorem findParks_activity_path (pv : ParksProviders) (c : FindParksCriteria) (a : String)
    (hq : c.q = none) (hs : c.stateCode = none) (ha : c.activity = some a) (hne : a ≠ "") :
    findParks pv c = jsSlice (pv.getParksByActivity a) c.start
      (min (pv.getParksByActivity a).length (c.start + c.limit)) := by
  unfold findParks
  rw [hq, hs, ha]
  simp [strOptTruthy, hne]

/-- C6: the dispatch is by fixed priority, first match wins, criteria never
combined: a present `q` or `stateCode` delegates to the combined text/state
search with limit/start passed through natively (any supplied activity is
ignored — it does not appear in the result); otherwise a truthy activity
fetches the full activity set and slices `[start, start + limit)` locally;
otherwise the full listing is fetched with native pagination. On the activity
path an out-of-range start yields the empty slice, and on a 12-item activity
result with limit 5 and start 10 exactly the items at indices 10 and 11 (the
drop-10 suffix) are returned. -/
theorem findParks_dispatch :
    (∀ (pv : ParksProviders) (c : FindParksCriteria), (c.q.isSome ∨ c.stateCode.isSome) →
      findParks pv c = pv.searchParks c.q c.stateCode c.limit c.start) ∧
    (∀ (pv : ParksProviders) (c : FindParksCriteria) (a : String),
      c.q = none → c.stateCode = none → c.activity = some a → a ≠ "" →
      findParks pv c = jsSlice (pv.getParksByActivity a) c.start
        (min (pv.getParksByActivity a).length (c.start + c.limit))) ∧
    (∀ (pv : ParksProviders) (c : FindParksCriteria),
      c.q = none → c.stateCode = none → c.activity = none →
      findParks pv c = pv.getParks c.limit c.start) ∧
    (∀ (l : List Park) (s lim : ℕ), l.length ≤ s →
      jsSlice l s (min l.length (s + lim)) = []) ∧
    (∀ (pv : ParksProviders) (c : FindParksCriteria) (a : String),
      c.q = none → c.stateCode = none → c.activity = some a → a ≠ "" →
      c.limit = 5 → c.start = 10 → (pv.getParksByActivity a).length = 12 →
      findParks pv c = (pv.getParksByActivity a).drop 10) := by
  refine ⟨?_, ?_, ?_, ?_, ?_⟩
  · intro pv c h
    have hb : (c.q.isSome || c.stateCode.isSome) = true := by
      rcases h with h | h <;> simp_all
    unfold findParks
    rw [if_pos hb]
  · intro pv c a hq hs ha hne
    exact findParks_activity_path pv c a hq hs ha hne
  · intro pv c hq hs ha
    unfold findParks
    rw [hq, hs, ha]
    simp [strOptTruthy]
  · intro l s lim h
    unfold jsSlice
    apply List.drop_eq_nil_of_le
    rw [List.length_take]
    omega
  · intro pv c a hq hs ha hne hlim hst hlen
    rw [findParks_activity_path pv c a hq hs ha hne, hst, hlim, hlen]
    unfold jsSlice
    have hm : min 12 (10 + 5) = 12 := by norm_num
    rw [hm, List.take_of_length_le hlen.le]

/-- C6 witness: with `q` present the search path is taken (the supplied
activity is ignored), and the activity path on a 12-item result with
limit 5, start 10 returns the two items at indices 10 and 11. -/
theorem findParks_dispatch_witness :
    (findParks
      { searchParks := fun _ _ _ _ => [{ parkCode := some "acad", name := "Acadia" }],
        getParksByActivity := fun _ => [], getParks := fun _ _ => [] }
      { q := some "lake", stateCode := none, activity := some "boating",
        limit := 10, start := 0 } =
      [{ parkCode := some "acad", name := "Acadia" }]) ∧
    (findParks
      { searchParks := fun _ _ _ _ => [],
        getParksByActivity := fun _ => List.replicate 12 { parkCode := none, name := "P" },
        getParks := fun _ _ => [] }
      { q := none, stateCode := none, activity := some "hiking", limit := 5, start := 10 } =
      (List.replicate 12 ({ parkCode := none, name := "P" } : Park)).drop 10) := by
  constructor
  · exact findParks_dispatch.1 _ _ (Or.inl (by rfl))
  · exact findParks_dispatch.2.2.2.2 _ _ "hiking" rfl rfl rfl (by decide) rfl rfl (by simp)

/-! ## Theorems for claim C7 (closure-relevance filter) -/

/-- C7: an alert is closure-relevant iff its title or category
case-insensitively contains "closure" or its title case-insensitively
contains "closed"; in particular a category "Park Closure" with an unrelated
title is relevant while title "Wildlife Advisory" / category "Safety" is
not. -/
theorem closure_relevant_iff :
    (∀ a : Alert, isClosureAlert a = true ↔
      (ciContains a.title "closure" = true ∨ ciContains a.category "closure" = true ∨
        ciContains a.title "closed" = true)) ∧
    isClosureAlert { title := "Trail maintenance", category := "Park Closure",
                     description := "Some trails undergoing maintenance" } = true ∧
    isClosureAlert { title := "Wildlife Advisory", category := "Safety",
                     description := "Bears active near trailheads" } = false := by
  refine ⟨?_, by decide, by decide⟩
  intro a
  have e1 : lc "closure" = "closure".data := by decide
  have e2 : lc "closed" = "closed".data := by decide
  unfold isClosureAlert ciContains
  rw [e1, e2]
  simp only [Bool.or_eq_true]
  tauto

/-- C8 witness: a concrete thrown transport error yields `none`. -/
theorem getCoordinates_failure_not_propagated_witness :
    getCoordinates (Except.error "network timeout") = none :=
  (getCoordinates_failure_not_propagated "network timeout").1

/-- C9 amended witness: the stub candidate `lat=37.8651, lon=-119.5383` round
trips into the parsed result exactly. -/
theorem getCoordinates_first_candidate_witness :
    getCoordinates
      (Except.ok [{ lat := "37.8651", lon := "-119.5383", display_name := "Yosemite" }]) =
      some { latitude := jsParseFloat "37.8651", longitude := jsParseFloat "-119.5383",
             displayName := "Yosemite" } :=
  (getCoordinates_first_candidate
    { lat := "37.8651", lon := "-119.5383", display_name := "Yosemite" } []).1

/-- C7 witness: a title containing "closed" makes an alert closure-relevant
through the characterising equivalence. -/
theorem closure_relevant_iff_witness :
    isClosureAlert { title := "Road closed for winter", category := "Information",
                     description := "Seasonal closing" } = true :=
  (closure_relevant_iff.1 _).mpr (Or.inr (Or.inr (by decide)))
